import Mathlib

/-!
Shallow embedding of `InsightDashboard/insights_analyzer.py`
(`LearningInsightsAnalyzer`) over exact rational arithmetic, together with
theorems settling the specification claims about it.

Conventions of the embedding:
* pandas DataFrames become `List` of records; a column selection followed by a
  row filter becomes `List.filter` + `List.map`.
* real-valued columns (scores, minutes) are `ℚ`; pandas/numpy results that can
  be NaN (mean/std of an empty or too-short column) are `Option ℚ` with `none`
  playing the role of NaN.
* standard deviations are carried as variances (their squares) so that the
  development stays inside `ℚ`; `std < c` for `c ≥ 0` is encoded as
  `var < c^2`, which is equivalent since `sqrt` is monotone.
* `pd.to_datetime` turns a raw string date into a parsed timestamp; only the
  change of representation matters to any claim, so the parsed value is an
  abstract stand-in (`parseDate`).
-/

/-- A date cell: either still the raw string the data source delivered, or the
parsed timestamp `pd.to_datetime` produces from it. -/
inductive DateVal
  | raw (s : String)
  | parsed (t : Nat)
deriving DecidableEq, Repr

/-- Modelled from the spec: stand-in for the timestamp `pd.to_datetime` parses
out of a raw date string (the library itself is outside the repository). Every
claim depends only on the raw→parsed change of representation and on dates
being orderable, never on the numeric value, so an arbitrary total function of
the string suffices. -/
def parseDate (s : String) : Nat := s.length

/-- `pd.to_datetime` on one cell: parses raw strings, leaves parsed values. -/
def toDatetime : DateVal → DateVal
  | .raw s => .parsed (parseDate s)
  | .parsed t => .parsed t

/-- Sort key of a date cell (used by `sort_values('assessment_date')`). -/
def dateKey : DateVal → Nat
  | .raw s => parseDate s
  | .parsed t => t

/-- A row of the students table (latent generation parameters dropped: the
analyzer reads only `student_id` linkage and the row count). -/
structure Student where
  student_id : String
  name : String
  grade_level : Nat
deriving DecidableEq, Repr

/-- A row of the assessments table. -/
structure Assessment where
  student_id : String
  subject : String
  topic : String
  assessment_date : DateVal
  score : ℚ
  max_score : ℚ
  time_spent_minutes : ℚ
  attempts : Nat
  difficulty_level : String
deriving DecidableEq, Repr

/-- A row of the study-sessions table. -/
structure StudySession where
  student_id : String
  session_date : DateVal
  subject : String
  duration_minutes : ℚ
  completed : Bool
deriving DecidableEq, Repr

/-- The three base tables (`self.students`, `self.assessments`,
`self.sessions`). -/
structure Tables where
  students : List Student
  assessments : List Assessment
  sessions : List StudySession
deriving DecidableEq, Repr

/- ### Generic list helpers (pandas primitives) -/

/-- pandas `Series.mean()`: NaN (`none`) on an empty column. -/
def qmean (xs : List ℚ) : Option ℚ :=
  if xs.length = 0 then none else some (xs.sum / (xs.length : ℚ))

/-- Insert into a sorted list w.r.t. a boolean comparison. -/
def insertLe (le : α → α → Bool) (x : α) : List α → List α
  | [] => [x]
  | y :: ys => if le x y then x :: y :: ys else y :: insertLe le x ys

/-- Insertion sort w.r.t. a boolean comparison (pandas `sort_values`). -/
def sortByLe (le : α → α → Bool) : List α → List α
  | [] => []
  | x :: xs => insertLe le x (sortByLe le xs)

/-- pandas `Series.unique()` / the distinct group keys of a `groupby`, in
first-appearance order. (`groupby(sort=True)` emits groups in sorted key
order; every caller below either re-sorts by an aggregate column or takes an
extremum, and no verified property depends on the emission order of groups or
on tie-breaks among equal aggregates, so first-appearance order is used.) -/
def uniqueKeys [DecidableEq κ] : List κ → List κ
  | [] => []
  | k :: ks => k :: uniqueKeys (ks.filter fun x => x ≠ k)
termination_by l => l.length
decreasing_by
  simp only [List.length_cons]
  exact Nat.lt_succ_of_le (List.length_filter_le _ _)

theorem mem_insertLe {le : α → α → Bool} {x y : α} {l : List α} :
    y ∈ insertLe le x l ↔ y = x ∨ y ∈ l := by
  induction l with
  | nil => simp [insertLe]
  | cons z zs ih =>
    rw [insertLe]
    by_cases h : le x z
    · rw [if_pos h]; simp
    · rw [if_neg h]; simp [ih]; tauto

theorem mem_sortByLe {le : α → α → Bool} {y : α} {l : List α} :
    y ∈ sortByLe le l ↔ y ∈ l := by
  induction l with
  | nil => simp [sortByLe]
  | cons x xs ih => rw [sortByLe]; simp [mem_insertLe, ih]

theorem pairwise_insertLe {le : α → α → Bool}
    (htrans : ∀ a b c, le a b = true → le b c = true → le a c = true)
    (htot : ∀ a b, le a b = true ∨ le b a = true)
    (x : α) {l : List α} (hl : l.Pairwise fun a b => le a b = true) :
    (insertLe le x l).Pairwise fun a b => le a b = true := by
  induction l with
  | nil => simp [insertLe]
  | cons z zs ih =>
    rcases List.pairwise_cons.mp hl with ⟨hz, hzs⟩
    rw [insertLe]
    by_cases h : le x z
    · rw [if_pos h]
      refine List.pairwise_cons.mpr ⟨?_, hl⟩
      intro b hb
      rcases List.mem_cons.mp hb with hb | hb
      · subst hb; exact h
      · exact htrans x z b h (hz b hb)
    · rw [if_neg h]
      refine List.pairwise_cons.mpr ⟨?_, ih hzs⟩
      intro b hb
      rcases mem_insertLe.mp hb with hb | hb
      · rw [hb]
        rcases htot x z with hc | hc
        · exact absurd hc h
        · exact hc
      · exact hz b hb

theorem pairwise_sortByLe {le : α → α → Bool}
    (htrans : ∀ a b c, le a b = true → le b c = true → le a c = true)
    (htot : ∀ a b, le a b = true ∨ le b a = true) (l : List α) :
    (sortByLe le l).Pairwise fun a b => le a b = true := by
  induction l with
  | nil => simp [sortByLe]
  | cons x xs ih => rw [sortByLe]; exact pairwise_insertLe htrans htot x ih

/- ### Analyzer operations (`LearningInsightsAnalyzer` methods) -/

/-- Boolean comparison behind `sort_values('assessment_date')`. -/
def dateLe (a b : Assessment) : Bool :=
  decide (dateKey a.assessment_date ≤ dateKey b.assessment_date)

/-- Rows of the assessments table for one student
(`self.assessments[self.assessments['student_id'] == student_id]`). -/
def studentAssessments (t : Tables) (student_id : String) : List Assessment :=
  t.assessments.filter fun a => a.student_id == student_id

/-- Rows of the sessions table for one student. -/
def studentSessions (t : Tables) (student_id : String) : List StudySession :=
  t.sessions.filter fun s => s.student_id == student_id

/-- The ordinary-least-squares slope `LinearRegression().fit(X, y).coef_[0]`
for `X = 0, 1, …, n-1`, in closed form
`(n·Σxy − Σx·Σy) / (n·Σx² − (Σx)²)`, computed exactly over `ℚ` (the library
evaluates the same least-squares coefficient in floating point). -/
def olsSlope (ys : List ℚ) : ℚ :=
  let n : ℚ := (ys.length : ℚ)
  let xs : List ℚ := (List.range ys.length).map fun i => (i : ℚ)
  let sx := xs.sum
  let sy := ys.sum
  let sxy := ((xs.zip ys).map fun p => p.1 * p.2).sum
  let sxx := (xs.map fun x => x * x).sum
  (n * sxy - sx * sy) / (n * sxx - sx * sx)

/-- The time-ordered score series the trend estimator fits: scores sorted by
assessment date. -/
def trendScores (assessments_df : List Assessment) : List ℚ :=
  (sortByLe dateLe assessments_df).map Assessment.score

/-- `_calculate_improvement_trend`: below 5 points short-circuits; otherwise
classify the OLS slope of the date-sorted score series with strict `>` at
every threshold. -/
def calculateImprovementTrend (assessments_df : List Assessment) : String :=
  if assessments_df.length < 5 then "Insufficient Data"
  else
    let slope := olsSlope (trendScores assessments_df)
    if slope > 1/2 then "Strong Improvement"
    else if slope > 1/10 then "Moderate Improvement"
    else if slope > -(1/10) then "Stable"
    else if slope > -(1/2) then "Slight Decline"
    else "Needs Attention"

/-- One row of the per-topic aggregate
(`groupby(['subject','topic']).agg({'score': ['mean','count']})`). -/
structure TopicRecord where
  subject : String
  topic : String
  avg_score : ℚ
  attempts : Nat
deriving DecidableEq, Repr

/-- The per-(subject, topic) aggregate table `topic_performance`: one row per
distinct key with the mean score and the attempt count of its group. Groups
are nonempty by construction, so no mean is taken over an empty group. -/
def topicPerformance (student_data : List Assessment) : List TopicRecord :=
  (uniqueKeys (student_data.map fun a => (a.subject, a.topic))).map fun k =>
    let scs := (student_data.filter fun a =>
      a.subject == k.1 && a.topic == k.2).map Assessment.score
    { subject := k.1, topic := k.2,
      avg_score := scs.sum / (scs.length : ℚ), attempts := scs.length }

/-- `identify_weak_topics(student_id, threshold)` (default threshold 70):
rows with mean strictly below the threshold, sorted ascending by mean. -/
def identifyWeakTopics (t : Tables) (student_id : String) (threshold : ℚ) :
    List TopicRecord :=
  sortByLe (fun a b => decide (a.avg_score ≤ b.avg_score))
    ((topicPerformance (studentAssessments t student_id)).filter fun r =>
      decide (r.avg_score < threshold))

/-- `identify_strong_topics(student_id, threshold)` (default threshold 85):
rows with mean at or above the threshold, sorted descending by mean. -/
def identifyStrongTopics (t : Tables) (student_id : String) (threshold : ℚ) :
    List TopicRecord :=
  sortByLe (fun a b => decide (b.avg_score ≤ a.avg_score))
    ((topicPerformance (studentAssessments t student_id)).filter fun r =>
      decide (r.avg_score ≥ threshold))

/-- numpy `arr.std()` squared: the population variance (`ddof = 0`,
`Σ(x−x̄)²/n`); 0 on an empty array only to totalize (every use site is guarded
to `n ≥ 3`). -/
def popVar (xs : List ℚ) : ℚ :=
  if xs.length = 0 then 0
  else ((xs.map fun x => (x - xs.sum / (xs.length : ℚ)) ^ 2).sum) / (xs.length : ℚ)

/-- pandas `Series.std()` squared: the sample variance with Bessel's
correction (`ddof = 1`, `Σ(x−x̄)²/(n−1)`); NaN (`none`) when `n < 2`. -/
def sampleVar (xs : List ℚ) : Option ℚ :=
  if xs.length < 2 then none
  else some (((xs.map fun x => (x - xs.sum / (xs.length : ℚ)) ^ 2).sum)
    / ((xs.length : ℚ) - 1))

/-- Python's `round(x, 2)`: round half to even at two decimal places (exact
rational model of the float operation). -/
def pyRound2 (q : ℚ) : ℚ :=
  let scaled := q * 100
  let f : ℤ := ⌊scaled⌋
  let r : ℤ :=
    if scaled - (f : ℚ) < 1/2 then f
    else if scaled - (f : ℚ) > 1/2 then f + 1
    else if f % 2 = 0 then f else f + 1
  (r : ℚ) / 100

/-- `df.tail(n)`: the last `n` rows. -/
def lastN (n : Nat) (l : List α) : List α := l.drop (l.length - n)

/-- The fixed recency weight vector `np.array([0.1, 0.15, 0.2, 0.25, 0.3])`. -/
def fixedWeights : List ℚ := [1/10, 3/20, 1/5, 1/4, 3/10]

/-- The prediction pipeline on a recent-score window: `weights[:len]`
(a PREFIX of the fixed vector), renormalized, then
`np.average(recent_scores, weights)` = `Σ wᵢ·vᵢ / Σ wᵢ`. -/
def prefixWeightedAvg (recent_scores : List ℚ) : ℚ :=
  let weights := fixedWeights.take recent_scores.length
  let wnorm := weights.map fun w => w / weights.sum
  ((wnorm.zip recent_scores).map fun p => p.1 * p.2).sum / wnorm.sum

/-- The date-sorted rows `student_data` of one student in one subject that
`predict_performance` works on. -/
def subjectRows (t : Tables) (student_id subject : String) : List Assessment :=
  sortByLe dateLe (t.assessments.filter fun a =>
    a.student_id == student_id && a.subject == subject)

/-- The recent window `student_data.tail(5)['score'].values`. -/
def recentScores (t : Tables) (student_id subject : String) : List ℚ :=
  lastN 5 ((subjectRows t student_id subject).map Assessment.score)

/-- Result dictionary of `predict_performance`; the insufficient-data branch
is `{'prediction': None, 'confidence': 'Low', 'message': …}` and the regular
branch `{'prediction': …, 'confidence': …, 'recent_trend': …}`. -/
structure PredictionResult where
  prediction : Option ℚ
  confidence : String
  recent_trend : Option String
  message : Option String
deriving DecidableEq, Repr

/-- `predict_performance(student_id, subject)`. The confidence label
thresholds `recent_scores.std() < 5` / `< 10` (numpy population std) are
encoded on the variance as `popVar < 25` / `< 100`. -/
def predictPerformance (t : Tables) (student_id subject : String) :
    PredictionResult :=
  if (t.assessments.filter fun a =>
      a.student_id == student_id && a.subject == subject).length < 3 then
    { prediction := none, confidence := "Low", recent_trend := none,
      message := some "Insufficient data" }
  else
    let recent := recentScores t student_id subject
    { prediction := some (pyRound2 (prefixWeightedAvg recent)),
      confidence :=
        if popVar recent < 25 then "High"
        else if popVar recent < 100 then "Medium"
        else "Low",
      recent_trend :=
        some (calculateImprovementTrend (subjectRows t student_id subject)),
      message := none }

/-- pandas `Series.median()`: middle element of the sorted values, or the mean
of the two middle elements for an even count (callers guard nonemptiness). -/
def median (xs : List ℚ) : ℚ :=
  let s := sortByLe (fun a b => decide (a ≤ b)) xs
  if s.length % 2 = 1 then s.getD (s.length / 2) 0
  else (s.getD (s.length / 2 - 1) 0 + s.getD (s.length / 2) 0) / 2

/-- `groupby('subject')['score'].mean()` over one student's rows: one
(subject, mean) pair per distinct subject. -/
def subjectMeans (as : List Assessment) : List (String × ℚ) :=
  (uniqueKeys (as.map Assessment.subject)).map fun s =>
    let scs := (as.filter fun a => a.subject == s).map Assessment.score
    (s, scs.sum / (scs.length : ℚ))

/-- `Series.idxmax()`: key of the first strictly greatest value
(`none` on an empty series; callers guard nonemptiness). -/
def idxmax (l : List (String × ℚ)) : Option String :=
  (l.foldl (fun acc p =>
    match acc with
    | none => some p
    | some q => if p.2 > q.2 then some p else some q) none).map Prod.fst

/-- `Series.idxmin()`: key of the first strictly least value. -/
def idxmin (l : List (String × ℚ)) : Option String :=
  (l.foldl (fun acc p =>
    match acc with
    | none => some p
    | some q => if p.2 < q.2 then some p else some q) none).map Prod.fst

/-- The summary dictionary built by `get_student_performance_summary`.
`score_var` carries the square of the `score_std` entry (sample variance,
`none` = NaN); `completion_rate` is `none` when the student has no sessions
(mean of an empty column = NaN, and NaN·100 = NaN). -/
structure PerformanceSummary where
  student_id : String
  total_assessments : Nat
  average_score : ℚ
  median_score : ℚ
  score_var : Option ℚ
  best_subject : String
  weakest_subject : String
  total_study_time : ℚ
  completion_rate : Option ℚ
  improvement_trend : String
deriving DecidableEq, Repr

/-- `get_student_performance_summary(student_id)`: `None` when the student has
no assessment rows, otherwise the summary dictionary. `best_subject` and
`weakest_subject` are guarded by nonemptiness, so the `getD ""` defaults are
never reached. -/
def getStudentPerformanceSummary (t : Tables) (student_id : String) :
    Option PerformanceSummary :=
  let student_assessments := studentAssessments t student_id
  let student_sessions := studentSessions t student_id
  if student_assessments.length = 0 then none
  else
    let scores := student_assessments.map Assessment.score
    some {
      student_id := student_id,
      total_assessments := student_assessments.length,
      average_score := scores.sum / (scores.length : ℚ),
      median_score := median scores,
      score_var := sampleVar scores,
      best_subject := (idxmax (subjectMeans student_assessments)).getD "",
      weakest_subject := (idxmin (subjectMeans student_assessments)).getD "",
      total_study_time := (student_sessions.map StudySession.duration_minutes).sum,
      completion_rate := (qmean (student_sessions.map fun s =>
        if s.completed then (1 : ℚ) else 0)).map fun m => m * 100,
      improvement_trend := calculateImprovementTrend student_assessments }

/-- `student_sessions['completed'].mean()`: the session completion rate. -/
def completionRateOf (sessions : List StudySession) : ℚ :=
  ((sessions.map fun s => if s.completed then (1 : ℚ) else 0).sum)
    / (sessions.length : ℚ)

/-- `student_data['time_spent_minutes'].mean()`. -/
def meanTimeSpent (as : List Assessment) : ℚ :=
  (as.map Assessment.time_spent_minutes).sum / (as.length : ℚ)

/-- One recommendation dictionary. The `message` / `suggestion` strings of the
source are presentation-layer formatting of the numeric payloads carried here:
`details` is the `details` list of the Skill-Gap rule (whose message names
`details`' topics), `completion_rate` the rate interpolated into the
Study-Habits message, `current_avg` the average interpolated into the
Time-Investment one. -/
structure Recommendation where
  priority : String
  category : String
  details : List TopicRecord
  completion_rate : Option ℚ
  current_avg : Option ℚ
deriving DecidableEq, Repr

/-- `get_study_recommendations(student_id)`: three independent rules appended
in fixed order (skill gaps, study habits, time investment). -/
def getStudyRecommendations (t : Tables) (student_id : String) :
    List Recommendation :=
  let weak_topics := identifyWeakTopics t student_id 70
  let student_sessions := studentSessions t student_id
  let student_data := studentAssessments t student_id
  (if weak_topics.length > 0 then
    [{ priority := "High", category := "Skill Gap",
       details := weak_topics.take 3, completion_rate := none,
       current_avg := none }]
  else []) ++
  (if student_sessions.length > 0 then
    if completionRateOf student_sessions < 7/10 then
      [{ priority := "Medium", category := "Study Habits", details := [],
         completion_rate := some (completionRateOf student_sessions),
         current_avg := none }]
    else []
  else []) ++
  (if student_data.length > 0 then
    if meanTimeSpent student_data < 20 then
      [{ priority := "Low", category := "Time Investment", details := [],
         completion_rate := none,
         current_avg := some (meanTimeSpent student_data) }]
    else []
  else [])

/-- The `engagement_metrics` dictionary of `_analyze_engagement`:
`completion_rate` and `avg_session_duration` are rounded to two decimals as in
the source; the duration average is NaN (`none`) with no sessions. -/
structure EngagementMetrics where
  total_sessions : Nat
  completion_rate : ℚ
  avg_session_duration : Option ℚ
deriving DecidableEq, Repr

/-- `_analyze_engagement()`: the division by the session count is guarded by
`total_sessions > 0`, the empty case yields 0. -/
def analyzeEngagement (t : Tables) : EngagementMetrics :=
  let total_sessions := t.sessions.length
  let completed_sessions := (t.sessions.filter StudySession.completed).length
  let completion_rate :=
    if total_sessions > 0 then
      (completed_sessions : ℚ) / (total_sessions : ℚ) * 100
    else 0
  { total_sessions := total_sessions,
    completion_rate := pyRound2 completion_rate,
    avg_session_duration :=
      (qmean (t.sessions.map StudySession.duration_minutes)).map pyRound2 }

/-- `groupby('student_id')['score'].mean()`: per-student mean scores. -/
def studentAverages (t : Tables) : List (String × ℚ) :=
  (uniqueKeys (t.assessments.map Assessment.student_id)).map fun sid =>
    let scs := (t.assessments.filter fun a =>
      a.student_id == sid).map Assessment.score
    (sid, scs.sum / (scs.length : ℚ))

/-- `_get_top_students(n)`: `Series.nlargest(n)` = sort descending, take n. -/
def getTopStudents (t : Tables) (n : Nat) : List (String × ℚ) :=
  (sortByLe (fun a b => decide (b.2 ≤ a.2)) (studentAverages t)).take n

/-- `_get_struggling_students(n)`: `Series.nsmallest(n)`. -/
def getStrugglingStudents (t : Tables) (n : Nat) : List (String × ℚ) :=
  (sortByLe (fun a b => decide (a.2 ≤ b.2)) (studentAverages t)).take n

/-- `_analyze_subject_difficulty()`: per-subject (mean, sample variance,
count) sorted ascending by mean. -/
def analyzeSubjectDifficulty (t : Tables) : List (String × ℚ × Option ℚ × Nat) :=
  sortByLe (fun a b => decide (a.2.1 ≤ b.2.1))
    ((uniqueKeys (t.assessments.map Assessment.subject)).map fun s =>
      let scs := (t.assessments.filter fun a =>
        a.subject == s).map Assessment.score
      (s, scs.sum / (scs.length : ℚ), sampleVar scs, scs.length))

/-- The dictionary built by `get_class_insights`. -/
structure ClassInsights where
  total_students : Nat
  total_assessments : Nat
  class_average : Option ℚ
  top_performers : List (String × ℚ)
  struggling_students : List (String × ℚ)
  subject_difficulty : List (String × ℚ × Option ℚ × Nat)
  engagement_metrics : EngagementMetrics
deriving DecidableEq, Repr

/-- `get_class_insights()`. -/
def getClassInsights (t : Tables) : ClassInsights :=
  { total_students := t.students.length,
    total_assessments := t.assessments.length,
    class_average := qmean (t.assessments.map Assessment.score),
    top_performers := getTopStudents t 5,
    struggling_students := getStrugglingStudents t 5,
    subject_difficulty := analyzeSubjectDifficulty t,
    engagement_metrics := analyzeEngagement t }

/-- `generate_insight_report(student_id)`: either the explicit
`{'error': 'No data available for this student'}` dictionary (`noData`) or
the full report. The `generated_at` wall-clock timestamp is an effect of the
ambient clock, outside the pure analysis, and is not modelled. -/
inductive InsightReport
  | noData
  | report (student_id : String) (performance_summary : PerformanceSummary)
      (weak_topics strong_topics : List TopicRecord)
      (subject_predictions : List (String × PredictionResult))
      (recommendations : List Recommendation)
deriving DecidableEq, Repr

/-- `generate_insight_report(student_id)`. -/
def generateInsightReport (t : Tables) (student_id : String) : InsightReport :=
  match getStudentPerformanceSummary t student_id with
  | none => .noData
  | some summary =>
    .report student_id summary
      (identifyWeakTopics t student_id 70)
      (identifyStrongTopics t student_id 85)
      ((uniqueKeys ((studentAssessments t student_id).map
        Assessment.subject)).map fun s => (s, predictPerformance t student_id s))
      (getStudyRecommendations t student_id)

/- ### Construction and state passing -/

/-- `__init__(students_df, assessments_df, sessions_df)`: the three dataframes
are stored WITHOUT copying, and the date columns are converted in place
(`self.assessments['assessment_date'] = pd.to_datetime(…)`, likewise for
sessions). Because `self.assessments` is the caller's very dataframe object,
the caller's tables after construction are the returned ones. -/
def initAnalyzer (t : Tables) : Tables :=
  { students := t.students,
    assessments := t.assessments.map fun a =>
      { a with assessment_date := toDatetime a.assessment_date },
    sessions := t.sessions.map fun s =>
      { s with session_date := toDatetime s.session_date } }

/-- One public method call of the analyzer, with its arguments. -/
inductive AnalyzerOp
  | summary (student_id : String)
  | weakT (student_id : String) (threshold : ℚ)
  | strongT (student_id : String) (threshold : ℚ)
  | predict (student_id subject : String)
  | recommend (student_id : String)
  | classInsights
  | report (student_id : String)
deriving DecidableEq

/-- The result value a method call returns. -/
inductive OpResult
  | summaryR (r : Option PerformanceSummary)
  | topicsR (r : List TopicRecord)
  | predictR (r : PredictionResult)
  | recommendR (r : List Recommendation)
  | classR (r : ClassInsights)
  | reportR (r : InsightReport)
deriving DecidableEq

/-- State-passing form of the method calls: each returns its result together
with the post-call table state. No method body assigns to `self.students`,
`self.assessments` or `self.sessions` (`predict_performance` sorts a
`.copy()`, and the remaining methods build only fresh local frames), so the
post-call state is the input state. -/
def runOp (t : Tables) : AnalyzerOp → OpResult × Tables
  | .summary sid => (.summaryR (getStudentPerformanceSummary t sid), t)
  | .weakT sid thr => (.topicsR (identifyWeakTopics t sid thr), t)
  | .strongT sid thr => (.topicsR (identifyStrongTopics t sid thr), t)
  | .predict sid subj => (.predictR (predictPerformance t sid subj), t)
  | .recommend sid => (.recommendR (getStudyRecommendations t sid), t)
  | .classInsights => (.classR (getClassInsights t), t)
  | .report sid => (.reportR (generateInsightReport t sid), t)

/- ### Spec-side comparison definitions (refinement checks) -/

/-- Modelled from the spec (§4.4), for comparison with the source: with fewer
than 5 recent scores the weights are the last entries of the fixed vector
(a SUFFIX), renormalized. -/
def specSuffixWeightedAvg (recent_scores : List ℚ) : ℚ :=
  let weights := fixedWeights.drop (fixedWeights.length - recent_scores.length)
  let wnorm := weights.map fun w => w / weights.sum
  ((wnorm.zip recent_scores).map fun p => p.1 * p.2).sum / wnorm.sum

/-- Modelled from the spec (§4.1 with §4.4), for comparison with the source:
the prediction-confidence label derived from the SAMPLE standard deviation
(Bessel's correction), encoded on the variance (`std < 5` ↔ `var < 25`). -/
def specSampleConfidence (recent_scores : List ℚ) : String :=
  if (sampleVar recent_scores).getD 0 < 25 then "High"
  else if (sampleVar recent_scores).getD 0 < 100 then "Medium"
  else "Low"

/- ### Concrete fixtures -/

/-- Assessment-row builder for fixtures (constant incidental columns). -/
def mkA (sid subj top : String) (d : Nat) (sc tmin : ℚ) : Assessment :=
  { student_id := sid, subject := subj, topic := top,
    assessment_date := .parsed d, score := sc, max_score := 100,
    time_spent_minutes := tmin, attempts := 1, difficulty_level := "Medium" }

/-- Five time-ordered assessments with scores 50.2, 50.1, 50, 49.9, 49.8:
their OLS slope is exactly −0.1. -/
def aSlopeTenth : List Assessment :=
  [mkA "STU001" "Mathematics" "Algebra" 0 (251/5) 30,
   mkA "STU001" "Mathematics" "Algebra" 1 (501/10) 30,
   mkA "STU001" "Mathematics" "Algebra" 2 50 30,
   mkA "STU001" "Mathematics" "Algebra" 3 (499/10) 30,
   mkA "STU001" "Mathematics" "Algebra" 4 (249/5) 30]

/-- Five time-ordered assessments with scores 50, 55, 60, 65, 70: slope 5. -/
def aSlopeFive : List Assessment :=
  [mkA "STU001" "Mathematics" "Algebra" 0 50 30,
   mkA "STU001" "Mathematics" "Algebra" 1 55 30,
   mkA "STU001" "Mathematics" "Algebra" 2 60 30,
   mkA "STU001" "Mathematics" "Algebra" 3 65 30,
   mkA "STU001" "Mathematics" "Algebra" 4 70 30]

/-- One student with exactly the subject scores 60, 70, 80 (time-ordered). -/
def tScores607080 : Tables :=
  { students := [{ student_id := "STU001", name := "Student 1", grade_level := 10 }],
    assessments :=
      [mkA "STU001" "Mathematics" "Algebra" 0 60 30,
       mkA "STU001" "Mathematics" "Algebra" 1 70 30,
       mkA "STU001" "Mathematics" "Algebra" 2 80 30],
    sessions := [] }

/-- One student with exactly the subject scores 65, 70, 75 (time-ordered):
population variance 50/3, sample variance 25. -/
def tScores657075 : Tables :=
  { students := [{ student_id := "STU001", name := "Student 1", grade_level := 10 }],
    assessments :=
      [mkA "STU001" "Mathematics" "Algebra" 0 65 30,
       mkA "STU001" "Mathematics" "Algebra" 1 70 30,
       mkA "STU001" "Mathematics" "Algebra" 2 75 30],
    sessions := [] }

/-- A table whose assessment dates are still raw strings, as delivered by a
data source. -/
def tRawDates : Tables :=
  { students := [{ student_id := "STU001", name := "Student 1", grade_level := 10 }],
    assessments :=
      [{ student_id := "STU001", subject := "Mathematics", topic := "Algebra",
         assessment_date := .raw "2024-01-01", score := 80, max_score := 100,
         time_spent_minutes := 30, attempts := 1, difficulty_level := "Easy" }],
    sessions := [] }

/- ### Claim theorems -/

/-- C8: for every student and subject with fewer than 3 observations,
`predict_performance` returns the insufficient-data dictionary: no numeric
prediction (`prediction = None`) and confidence `"Low"` — not an error and
not a computed score. -/
theorem prediction_insufficient_history (t : Tables) (sid subj : String)
    (h : (t.assessments.filter fun a =>
      a.student_id == sid && a.subject == subj).length < 3) :
    predictPerformance t sid subj =
      { prediction := none, confidence := "Low", recent_trend := none,
        message := some "Insufficient data" } := by
  rw [predictPerformance, if_pos h]

theorem prediction_insufficient_history_witness :
    predictPerformance tScores607080 "STU001" "History" =
      { prediction := none, confidence := "Low", recent_trend := none,
        message := some "Insufficient data" } :=
  prediction_insufficient_history tScores607080 "STU001" "History" (by decide)

/-- C9: the class-level completion rate is 0 (a plain number, not an error or
NaN — the field is a total rational) when the sessions table is empty, and
otherwise equals completed-count / total-count × 100 (rounded to two decimals
for the report, as the source does); the division is guarded by
`total_sessions > 0` and so never happens on an empty collection. -/
theorem class_completion_rate_guarded (t : Tables) :
    (t.sessions = [] → (analyzeEngagement t).completion_rate = 0) ∧
    (t.sessions ≠ [] →
      (analyzeEngagement t).completion_rate =
        pyRound2 (((t.sessions.filter StudySession.completed).length : ℚ)
          / (t.sessions.length : ℚ) * 100)) := by
  constructor
  · intro h
    simp [analyzeEngagement, h, pyRound2]
  · intro h
    have hlen : t.sessions.length > 0 := List.length_pos.mpr h
    simp [analyzeEngagement, hlen]

/-- An empty-tables fixture. -/
def tEmpty : Tables := { students := [], assessments := [], sessions := [] }

/-- A fixture with exactly one (completed) study session. -/
def tOneSession : Tables :=
  { students := [], assessments := [],
    sessions := [⟨"STU001", DateVal.parsed 0, "Mathematics", 30, true⟩] }

theorem class_completion_rate_guarded_witness :
    (analyzeEngagement tEmpty).completion_rate = 0 ∧
    (analyzeEngagement tOneSession).completion_rate =
      pyRound2 (((tOneSession.sessions.filter StudySession.completed).length : ℚ)
        / (tOneSession.sessions.length : ℚ) * 100) :=
  ⟨(class_completion_rate_guarded tEmpty).1 rfl,
   (class_completion_rate_guarded tOneSession).2 (by decide)⟩

/-- C3 counterexample: construction is NOT mutation-free. `__init__` stores
the caller's dataframes without copying and parses the date columns in place,
so constructing the analyzer from a table whose dates are raw strings changes
the caller's base table. -/
theorem init_mutates_tables_counterexample : initAnalyzer tRawDates ≠ tRawDates := by
  decide

/-- C3 (amended): no method call after construction ever mutates the base
tables — every public operation returns its result with the table state
unchanged; construction itself rewrites exactly the date columns in place
(raw strings become parsed datetimes, all other fields and the students table
are untouched), and constructing again over already-parsed tables changes
nothing. -/
theorem no_mutation_after_construction :
    (∀ (t : Tables) (op : AnalyzerOp), (runOp t op).2 = t) ∧
    (∀ t : Tables,
      (initAnalyzer t).students = t.students ∧
      (initAnalyzer t).assessments = t.assessments.map (fun a =>
        { a with assessment_date := toDatetime a.assessment_date }) ∧
      (initAnalyzer t).sessions = t.sessions.map (fun s =>
        { s with session_date := toDatetime s.session_date })) ∧
    (∀ t : Tables, initAnalyzer (initAnalyzer t) = initAnalyzer t) := by
  refine ⟨fun t op => by cases op <;> rfl, fun t => ⟨rfl, rfl, rfl⟩, fun t => ?_⟩
  have hd : ∀ d : DateVal, toDatetime (toDatetime d) = toDatetime d := by
    intro d; cases d <;> rfl
  simp [initAnalyzer, Function.comp, hd]

/-- C6: a student identifier with zero assessment records gets the explicit
"no data available" error variant — never a partial report; a student with at
least one assessment gets the full report (never the error variant); and the
class-level computation over the same tables is unaffected by the per-student
request (the table state after the request is unchanged, so the class insights
computed after it coincide with those computed before). -/
theorem report_no_data_variant (t : Tables) (sid : String) :
    (studentAssessments t sid = [] →
      generateInsightReport t sid = InsightReport.noData) ∧
    (studentAssessments t sid ≠ [] →
      ∃ s w st p r, generateInsightReport t sid = InsightReport.report sid s w st p r ∧
        generateInsightReport t sid ≠ InsightReport.noData) ∧
    getClassInsights (runOp t (AnalyzerOp.report sid)).2 = getClassInsights t := by
  refine ⟨?_, ?_, rfl⟩
  · intro h
    simp [generateInsightReport, getStudentPerformanceSummary, h]
  · intro h
    have h0 : ¬ (studentAssessments t sid).length = 0 := by simpa using h
    simp only [generateInsightReport, getStudentPerformanceSummary, if_neg h0]
    exact ⟨_, _, _, _, _, rfl, by simp⟩

theorem report_no_data_variant_witness :
    generateInsightReport tEmpty "STU001" = InsightReport.noData ∧
    generateInsightReport tScores607080 "STU001" ≠ InsightReport.noData := by
  refine ⟨(report_no_data_variant tEmpty "STU001").1 (by decide), ?_⟩
  obtain ⟨s, w, st, p, r, _, hne⟩ :=
    (report_no_data_variant tScores607080 "STU001").2.1 (by decide)
  exact hne

/-- C10: a student with at least one assessment but zero study sessions still
gets a summary (not a failure); its `total_study_time` is 0, but its
`completion_rate` is NaN (`none`: the mean of an empty session column times
100), not 0 — the zero-session guard of the class-level engagement metric has
no counterpart at per-student scope. -/
theorem summary_zero_sessions_nan (t : Tables) (sid : String)
    (ha : studentAssessments t sid ≠ []) (hs : studentSessions t sid = []) :
    ∃ s, getStudentPerformanceSummary t sid = some s ∧
      s.total_study_time = 0 ∧ s.completion_rate = none := by
  have h0 : ¬ (studentAssessments t sid).length = 0 := by simpa using ha
  simp only [getStudentPerformanceSummary, if_neg h0]
  exact ⟨_, rfl, by simp [hs], by simp [hs, qmean]⟩

theorem summary_zero_sessions_nan_witness :
    ∃ s, getStudentPerformanceSummary tScores607080 "STU001" = some s ∧
      s.total_study_time = 0 ∧ s.completion_rate = none :=
  summary_zero_sessions_nan tScores607080 "STU001" (by decide) (by decide)

theorem mem_identifyWeakTopics {t : Tables} {sid : String} {thr : ℚ}
    {r : TopicRecord} :
    r ∈ identifyWeakTopics t sid thr ↔
      r ∈ topicPerformance (studentAssessments t sid) ∧ r.avg_score < thr := by
  rw [identifyWeakTopics, mem_sortByLe, List.mem_filter]
  simp

theorem mem_identifyStrongTopics {t : Tables} {sid : String} {thr : ℚ}
    {r : TopicRecord} :
    r ∈ identifyStrongTopics t sid thr ↔
      r ∈ topicPerformance (studentAssessments t sid) ∧ thr ≤ r.avg_score := by
  rw [identifyStrongTopics, mem_sortByLe, List.mem_filter]
  simp [ge_iff_le]

theorem pairwise_weakTopics (t : Tables) (sid : String) (thr : ℚ) :
    (identifyWeakTopics t sid thr).Pairwise
      fun a b => a.avg_score ≤ b.avg_score := by
  unfold identifyWeakTopics
  refine (pairwise_sortByLe ?_ ?_ _).imp fun hab => of_decide_eq_true hab
  · intro a b c hab hbc
    exact decide_eq_true (le_trans (of_decide_eq_true hab) (of_decide_eq_true hbc))
  · intro a b
    rcases le_total a.avg_score b.avg_score with h | h
    · exact Or.inl (decide_eq_true h)
    · exact Or.inr (decide_eq_true h)

theorem pairwise_strongTopics (t : Tables) (sid : String) (thr : ℚ) :
    (identifyStrongTopics t sid thr).Pairwise
      fun a b => b.avg_score ≤ a.avg_score := by
  unfold identifyStrongTopics
  refine (pairwise_sortByLe ?_ ?_ _).imp fun hab => of_decide_eq_true hab
  · intro a b c hab hbc
    exact decide_eq_true (le_trans (of_decide_eq_true hbc) (of_decide_eq_true hab))
  · intro a b
    rcases le_total b.avg_score a.avg_score with h | h
    · exact Or.inl (decide_eq_true h)
    · exact Or.inr (decide_eq_true h)

/-- One student with four single-assessment topics of means 60, 70, 85, 90. -/
def tTopics : Tables :=
  { students := [{ student_id := "STU001", name := "Student 1", grade_level := 10 }],
    assessments :=
      [mkA "STU001" "Mathematics" "Algebra" 0 60 30,
       mkA "STU001" "Mathematics" "Geometry" 1 70 30,
       mkA "STU001" "Science" "Physics" 2 85 30,
       mkA "STU001" "Science" "Biology" 3 90 30],
    sessions := [] }

/-- C5: with the default thresholds 70 and 85, the weak-topic set holds
exactly the (subject, topic) aggregates with mean strictly below 70, sorted
ascending by mean; the strong-topic set exactly those with mean at least 85,
sorted descending; the two sets are disjoint; a topic with mean exactly 70 is
excluded from weak and one with mean exactly 85 is included in strong. -/
theorem weak_strong_topic_classification (t : Tables) (sid : String) :
    (∀ r, r ∈ identifyWeakTopics t sid 70 ↔
      r ∈ topicPerformance (studentAssessments t sid) ∧ r.avg_score < 70) ∧
    (identifyWeakTopics t sid 70).Pairwise
      (fun a b => a.avg_score ≤ b.avg_score) ∧
    (∀ r, r ∈ identifyStrongTopics t sid 85 ↔
      r ∈ topicPerformance (studentAssessments t sid) ∧ 85 ≤ r.avg_score) ∧
    (identifyStrongTopics t sid 85).Pairwise
      (fun a b => b.avg_score ≤ a.avg_score) ∧
    (∀ r, ¬ (r ∈ identifyWeakTopics t sid 70 ∧ r ∈ identifyStrongTopics t sid 85)) ∧
    (∀ r, r ∈ topicPerformance (studentAssessments t sid) → r.avg_score = 70 →
      r ∉ identifyWeakTopics t sid 70) ∧
    (∀ r, r ∈ topicPerformance (studentAssessments t sid) → r.avg_score = 85 →
      r ∈ identifyStrongTopics t sid 85) := by
  refine ⟨fun r => mem_identifyWeakTopics, pairwise_weakTopics t sid 70,
    fun r => mem_identifyStrongTopics, pairwise_strongTopics t sid 85,
    fun r hr => ?_, fun r hr h70 hw => ?_, fun r hr h85 => ?_⟩
  · rcases hr with ⟨hw, hs⟩
    have h1 := (mem_identifyWeakTopics.mp hw).2
    have h2 := (mem_identifyStrongTopics.mp hs).2
    linarith
  · have h1 := (mem_identifyWeakTopics.mp hw).2
    rw [h70] at h1
    exact absurd h1 (lt_irrefl 70)
  · exact mem_identifyStrongTopics.mpr ⟨hr, le_of_eq h85.symm⟩

theorem weak_strong_topic_classification_witness :
    (⟨"Mathematics", "Algebra", 60, 1⟩ : TopicRecord) ∈
      identifyWeakTopics tTopics "STU001" 70 ∧
    (⟨"Mathematics", "Geometry", 70, 1⟩ : TopicRecord) ∉
      identifyWeakTopics tTopics "STU001" 70 ∧
    (⟨"Science", "Physics", 85, 1⟩ : TopicRecord) ∈
      identifyStrongTopics tTopics "STU001" 85 := by
  have h := weak_strong_topic_classification tTopics "STU001"
  refine ⟨(h.1 _).mpr ⟨?_, by norm_num⟩, h.2.2.2.2.2.1 _ ?_ rfl, h.2.2.2.2.2.2 _ ?_ rfl⟩
  · norm_num +decide [topicPerformance, studentAssessments, uniqueKeys, mkA, tTopics]
  · norm_num +decide [topicPerformance, studentAssessments, uniqueKeys, mkA, tTopics]
  · norm_num +decide [topicPerformance, studentAssessments, uniqueKeys, mkA, tTopics]

/-- One student with a single weak topic (score 60), zero study sessions, and
mean time-spent exactly 25 minutes. -/
def tRecScenario : Tables :=
  { students := [{ student_id := "STU001", name := "Student 1", grade_level := 10 }],
    assessments := [mkA "STU001" "Mathematics" "Algebra" 0 60 25],
    sessions := [] }

/-- C7: the three recommendation rules are evaluated in fixed order (skill
gaps, then study habits, then time investment); each fires independently
exactly when its own precondition holds (weak topics exist; at least one
session and completion rate < 0.7; at least one assessment and mean time-spent
< 20 minutes), and a missing precondition silently skips the rule. For a
student with at least one weak topic, zero study sessions and mean time-spent
25 minutes, exactly the single High-priority Skill-Gap recommendation is
produced, carrying the first 3 entries of the ascending-sorted weak-topic list
(the 3 lowest-scoring weak topics). -/
theorem recommendation_rules (t : Tables) (sid : String) :
    ((∃ r ∈ getStudyRecommendations t sid, r.category = "Skill Gap") ↔
      identifyWeakTopics t sid 70 ≠ []) ∧
    ((∃ r ∈ getStudyRecommendations t sid, r.category = "Study Habits") ↔
      studentSessions t sid ≠ [] ∧
        completionRateOf (studentSessions t sid) < 7/10) ∧
    ((∃ r ∈ getStudyRecommendations t sid, r.category = "Time Investment") ↔
      studentAssessments t sid ≠ [] ∧
        meanTimeSpent (studentAssessments t sid) < 20) ∧
    (getStudyRecommendations t sid =
      (getStudyRecommendations t sid).filter (fun r => r.category == "Skill Gap") ++
      (getStudyRecommendations t sid).filter (fun r => r.category == "Study Habits") ++
      (getStudyRecommendations t sid).filter (fun r => r.category == "Time Investment")) ∧
    (identifyWeakTopics t sid 70 ≠ [] → studentSessions t sid = [] →
      meanTimeSpent (studentAssessments t sid) = 25 →
      getStudyRecommendations t sid =
        [{ priority := "High", category := "Skill Gap",
           details := (identifyWeakTopics t sid 70).take 3,
           completion_rate := none, current_avg := none }]) := by
  refine ⟨?_, ?_, ?_, ?_, ?_⟩
  · simp only [getStudyRecommendations]
    split_ifs <;> simp_all [List.length_pos]
  · simp only [getStudyRecommendations]
    split_ifs <;> simp_all [List.length_pos]
  · simp only [getStudyRecommendations]
    split_ifs <;> simp_all [List.length_pos]
  · simp only [getStudyRecommendations]
    split_ifs <;> simp
  · intro hw hs hm
    have hw' : (identifyWeakTopics t sid 70).length > 0 := List.length_pos.mpr hw
    by_cases hd : (studentAssessments t sid).length > 0
    · simp [getStudyRecommendations, hw', hs, hd, hm]
      norm_num
    · simp [getStudyRecommendations, hw', hs, hd]

theorem recommendation_rules_witness :
    getStudyRecommendations tRecScenario "STU001" =
      [{ priority := "High", category := "Skill Gap",
         details := (identifyWeakTopics tRecScenario "STU001" 70).take 3,
         completion_rate := none, current_avg := none }] :=
  (recommendation_rules tRecScenario "STU001").2.2.2.2
    (by
      intro h
      have := congrArg List.length h
      norm_num +decide [identifyWeakTopics, topicPerformance, studentAssessments,
        uniqueKeys, sortByLe, insertLe, mkA, tRecScenario] at this)
    (by decide)
    (by norm_num +decide [meanTimeSpent, studentAssessments, mkA, tRecScenario])

/-- C1 (amended): the trend label is "Insufficient Data" iff the series has
fewer than 5 points; for 5 or more points it is determined by the OLS slope,
with every comparison STRICT, so the boundary sides are: slope exactly 0.5 →
"Moderate Improvement" and exactly 0.1 → "Stable" (as the spec table says),
but slope exactly −0.1 → "Slight Decline" (not "Stable") and exactly −0.5 →
"Needs Attention" (not "Slight Decline"): Stable is (−0.1, 0.1], Slight
Decline is (−0.5, −0.1], Needs Attention is ≤ −0.5. -/
theorem trend_label_classification (as : List Assessment) :
    (calculateImprovementTrend as = "Insufficient Data" ↔ as.length < 5) ∧
    (¬ as.length < 5 →
      (1/2 < olsSlope (trendScores as) →
        calculateImprovementTrend as = "Strong Improvement") ∧
      (1/10 < olsSlope (trendScores as) ∧ olsSlope (trendScores as) ≤ 1/2 →
        calculateImprovementTrend as = "Moderate Improvement") ∧
      (-(1/10) < olsSlope (trendScores as) ∧ olsSlope (trendScores as) ≤ 1/10 →
        calculateImprovementTrend as = "Stable") ∧
      (-(1/2) < olsSlope (trendScores as) ∧ olsSlope (trendScores as) ≤ -(1/10) →
        calculateImprovementTrend as = "Slight Decline") ∧
      (olsSlope (trendScores as) ≤ -(1/2) →
        calculateImprovementTrend as = "Needs Attention")) := by
  constructor
  · by_cases h : as.length < 5
    · simp [calculateImprovementTrend, h]
    · simp only [calculateImprovementTrend, if_neg h]
      split_ifs <;> exact iff_of_false (by decide) h
  · intro h
    refine ⟨?_, ?_, ?_, ?_, ?_⟩
    · intro hs
      simp only [calculateImprovementTrend, if_neg h]
      rw [if_pos hs]
    · rintro ⟨h1, h2⟩
      simp only [calculateImprovementTrend, if_neg h]
      rw [if_neg (not_lt.mpr h2), if_pos h1]
    · rintro ⟨h1, h2⟩
      simp only [calculateImprovementTrend, if_neg h]
      rw [if_neg (not_lt.mpr (h2.trans (by norm_num))),
        if_neg (not_lt.mpr h2), if_pos h1]
    · rintro ⟨h1, h2⟩
      simp only [calculateImprovementTrend, if_neg h]
      rw [if_neg (not_lt.mpr (h2.trans (by norm_num))),
        if_neg (not_lt.mpr (h2.trans (by norm_num))),
        if_neg (not_lt.mpr h2), if_pos h1]
    · intro hs
      simp only [calculateImprovementTrend, if_neg h]
      rw [if_neg (not_lt.mpr (hs.trans (by norm_num))),
        if_neg (not_lt.mpr (hs.trans (by norm_num))),
        if_neg (not_lt.mpr (hs.trans (by norm_num))),
        if_neg (not_lt.mpr hs)]

/-- C1 counterexample: a five-point series whose OLS slope is exactly −0.1 is
labelled "Slight Decline" by the code, while the claim (and the spec table,
whose "Stable" interval is the closed [−0.1, 0.1]) demands "Stable". -/
theorem trend_boundary_minus_tenth_counterexample :
    olsSlope (trendScores aSlopeTenth) = -(1/10) ∧
    calculateImprovementTrend aSlopeTenth = "Slight Decline" ∧
    ("Slight Decline" : String) ≠ "Stable" := by
  have hslope : olsSlope (trendScores aSlopeTenth) = -(1/10) := by
    norm_num +decide [olsSlope, trendScores, sortByLe, insertLe, dateLe, dateKey,
      aSlopeTenth, mkA, List.range_succ]
  have hlen : ¬ aSlopeTenth.length < 5 := by decide
  refine ⟨hslope, ?_, by decide⟩
  simp only [calculateImprovementTrend, if_neg hlen, hslope]
  norm_num

theorem trend_label_classification_witness :
    calculateImprovementTrend aSlopeFive = "Strong Improvement" := by
  have hslope : olsSlope (trendScores aSlopeFive) = 5 := by
    norm_num +decide [olsSlope, trendScores, sortByLe, insertLe, dateLe, dateKey,
      aSlopeFive, mkA, List.range_succ]
  exact ((trend_label_classification aSlopeFive).2 (by decide)).1
    (by rw [hslope]; norm_num)

/-- C2 (amended): with at least 3 observations the prediction is the weighted
average of the most recent up-to-5 scores, but the weights are the PREFIX
`[0.1, 0.15, 0.2][:n]` of the fixed vector renormalized to sum to 1 — not the
suffix the spec documents: with 3 recent scores the weights used are
`[0.1, 0.15, 0.2]`, renormalized to `[2/9, 1/3, 4/9]`. For scores
`[60, 70, 80]` the prediction is `650/9`, reported as 72.22 — which is indeed
not the plain arithmetic mean 70. -/
theorem prediction_weighted_forecast :
    (∀ (t : Tables) (sid subj : String),
      ¬ (t.assessments.filter fun a =>
          a.student_id == sid && a.subject == subj).length < 3 →
      (predictPerformance t sid subj).prediction =
        some (pyRound2 (prefixWeightedAvg (recentScores t sid subj)))) ∧
    (fixedWeights.take 3).map (fun w => w / (fixedWeights.take 3).sum) =
      [2/9, 1/3, 4/9] ∧
    prefixWeightedAvg [60, 70, 80] = 650/9 ∧
    (predictPerformance tScores607080 "STU001" "Mathematics").prediction =
      some (3611/50) ∧
    (3611/50 : ℚ) ≠ ((60 : ℚ) + 70 + 80) / 3 := by
  have hw : (fixedWeights.take 3).map (fun w => w / (fixedWeights.take 3).sum) =
      [2/9, 1/3, 4/9] := by
    norm_num [fixedWeights]
  have hpre : prefixWeightedAvg [60, 70, 80] = 650/9 := by
    norm_num [prefixWeightedAvg, fixedWeights]
  have hrec : recentScores tScores607080 "STU001" "Mathematics" = [60, 70, 80] := by
    norm_num +decide [recentScores, subjectRows, lastN, sortByLe, insertLe,
      dateLe, dateKey, tScores607080, mkA]
  have h3 : ¬ (tScores607080.assessments.filter fun a =>
      a.student_id == "STU001" && a.subject == "Mathematics").length < 3 := by
    decide
  refine ⟨fun t sid subj h => by simp only [predictPerformance, if_neg h],
    hw, hpre, ?_, by norm_num⟩
  simp only [predictPerformance, if_neg h3, hrec, hpre]
  norm_num [pyRound2]

theorem prediction_weighted_forecast_witness :
    (predictPerformance tScores607080 "STU001" "Mathematics").prediction =
      some (pyRound2 (prefixWeightedAvg
        (recentScores tScores607080 "STU001" "Mathematics"))) :=
  prediction_weighted_forecast.1 tScores607080 "STU001" "Mathematics" (by decide)

/-- C2 counterexample: for the exact scenario the claim fixes — 3 recent
scores `[60, 70, 80]` — the code's prediction is `3611/50` (72.22, from the
renormalized PREFIX `[0.1, 0.15, 0.2]`), while the documented suffix formula
(last 3 entries `[0.2, 0.25, 0.3]` renormalized) yields `214/3` ≈ 71.33; the
two disagree, so the prediction does not equal the documented formula's
result. -/
theorem prediction_prefix_weights_counterexample :
    (predictPerformance tScores607080 "STU001" "Mathematics").prediction =
      some (3611/50) ∧
    specSuffixWeightedAvg [60, 70, 80] = 214/3 ∧
    pyRound2 (214/3) = 7133/100 ∧
    (3611/50 : ℚ) ≠ 214/3 ∧ (3611/50 : ℚ) ≠ 7133/100 := by
  have hrec : recentScores tScores607080 "STU001" "Mathematics" = [60, 70, 80] := by
    norm_num +decide [recentScores, subjectRows, lastN, sortByLe, insertLe,
      dateLe, dateKey, tScores607080, mkA]
  have h3 : ¬ (tScores607080.assessments.filter fun a =>
      a.student_id == "STU001" && a.subject == "Mathematics").length < 3 := by
    decide
  refine ⟨?_, ?_, ?_, by norm_num, by norm_num⟩
  · simp only [predictPerformance, if_neg h3, hrec]
    norm_num [prefixWeightedAvg, fixedWeights, pyRound2]
  · norm_num [specSuffixWeightedAvg, fixedWeights]
  · norm_num [pyRound2]

/-- C4 (amended): the analyzer does NOT use one standard-deviation estimator
at all call sites. The summary's `score_std` is the pandas sample standard
deviation (Bessel, ddof = 1), while the recent-window dispersion driving the
prediction-confidence label is the numpy population standard deviation
(ddof = 0); the thresholds std < 5 / std < 10 are applied to the population
value (encoded here on variances as 25 / 100). The two estimators differ,
e.g. on [65, 70, 75] (sample variance 25, population variance 50/3). -/
theorem std_estimators_per_call_site :
    (∀ (t : Tables) (sid : String) (s : PerformanceSummary),
      getStudentPerformanceSummary t sid = some s →
      s.score_var = sampleVar ((studentAssessments t sid).map Assessment.score)) ∧
    (∀ (t : Tables) (sid subj : String),
      ¬ (t.assessments.filter fun a =>
          a.student_id == sid && a.subject == subj).length < 3 →
      (predictPerformance t sid subj).confidence =
        (if popVar (recentScores t sid subj) < 25 then "High"
         else if popVar (recentScores t sid subj) < 100 then "Medium"
         else "Low")) ∧
    sampleVar [65, 70, 75] = some 25 ∧
    popVar [65, 70, 75] = 50/3 ∧
    ((50 : ℚ)/3) ≠ 25 := by
  refine ⟨?_, ?_, by norm_num [sampleVar], by norm_num [popVar], by norm_num⟩
  · intro t sid s h
    by_cases h0 : (studentAssessments t sid).length = 0
    · simp [getStudentPerformanceSummary, h0] at h
    · simp only [getStudentPerformanceSummary, if_neg h0, Option.some.injEq] at h
      rw [← h]
  · intro t sid subj h
    simp only [predictPerformance, if_neg h]

/-- C4 counterexample: on the student whose subject scores are [65, 70, 75],
the code's confidence label is "High" (population std √(50/3) ≈ 4.08 < 5),
while the label computed from the sample standard deviation — the estimator
the claim says is used everywhere — is "Medium" (sample std = 5, and 5 < 5
fails); meanwhile the summary's std field at the same input is the sample
value (variance 25). The same-estimator claim is therefore false. -/
theorem std_estimator_mismatch_counterexample :
    (predictPerformance tScores657075 "STU001" "Mathematics").confidence = "High" ∧
    specSampleConfidence (recentScores tScores657075 "STU001" "Mathematics") =
      "Medium" ∧
    (∃ s, getStudentPerformanceSummary tScores657075 "STU001" = some s ∧
      s.score_var = some 25) ∧
    ("High" : String) ≠ "Medium" := by
  have hrec : recentScores tScores657075 "STU001" "Mathematics" = [65, 70, 75] := by
    norm_num +decide [recentScores, subjectRows, lastN, sortByLe, insertLe,
      dateLe, dateKey, tScores657075, mkA]
  have h3 : ¬ (tScores657075.assessments.filter fun a =>
      a.student_id == "STU001" && a.subject == "Mathematics").length < 3 := by
    decide
  have h0 : ¬ (studentAssessments tScores657075 "STU001").length = 0 := by decide
  refine ⟨?_, ?_, ?_, by decide⟩
  · simp only [predictPerformance, if_neg h3, hrec]
    norm_num [popVar]
  · rw [hrec]
    norm_num [specSampleConfidence, sampleVar]
  · simp only [getStudentPerformanceSummary, if_neg h0]
    refine ⟨_, rfl, ?_⟩
    norm_num +decide [studentAssessments, tScores657075, mkA, sampleVar]

theorem std_estimators_per_call_site_witness :
    (predictPerformance tScores657075 "STU001" "Mathematics").confidence =
      (if popVar (recentScores tScores657075 "STU001" "Mathematics") < 25 then "High"
       else if popVar (recentScores tScores657075 "STU001" "Mathematics") < 100 then "Medium"
       else "Low") ∧
    (getStudentPerformanceSummary tScores657075 "STU001").map
        PerformanceSummary.score_var =
      some (sampleVar ((studentAssessments tScores657075 "STU001").map
        Assessment.score)) := by
  refine ⟨std_estimators_per_call_site.2.1 tScores657075 "STU001" "Mathematics"
    (by decide), ?_⟩
  have h0 : ¬ (studentAssessments tScores657075 "STU001").length = 0 := by decide
  obtain ⟨s, hs⟩ : ∃ s, getStudentPerformanceSummary tScores657075 "STU001" = some s := by
    simp only [getStudentPerformanceSummary, if_neg h0]
    exact ⟨_, rfl⟩
  rw [hs, Option.map_some']
  exact congrArg some (std_estimators_per_call_site.1 tScores657075 "STU001" s hs)
